import Mathlib

/-
Verification of the limb-detection and rep-state-machine engine of a
physiotherapy exercise tracker.  The definitions below are a shallow
embedding of the TypeScript source: `calculateAngle`, `detectActiveArm`,
`analyzeArmExercise` and `analyzeExerciseForm` from the main pose page,
and `validateAndCorrectExercise` from the recommendation API route.
Coordinates and angles are rationals or reals; timestamps are integers
(milliseconds).
-/

/- ---------------------------------------------------------------- -/
/- Data model                                                        -/
/- ---------------------------------------------------------------- -/

structure Pt (α : Type) where
  x : α
  y : α
  visibility : α
deriving DecidableEq

def Frame (α : Type) : Type := ℕ → Option (Pt α)

inductive Side where
  | left
  | right
deriving DecidableEq

structure RepThresholds (α : Type) where
  liftingMin : α
  loweringMax : α
  restMax : α
deriving DecidableEq

structure TargetRanges (α : Type) where
  startingPosition : α × α
  targetRange : α × α
  optimalPeak : α × α
deriving DecidableEq

structure PrimaryAngle where
  points : ℕ × ℕ × ℕ
  name : String
deriving DecidableEq

structure FormCheck where
  condition : String
  errorMessage : String
  keypoints : List ℕ
deriving DecidableEq

structure ExerciseData (α : Type) where
  exerciseName : String
  description : String
  steps : List String
  targetKeypoints : List ℕ
  primaryAngle : PrimaryAngle
  targetRanges : TargetRanges α
  formChecks : List FormCheck
  repThresholds : RepThresholds α
deriving DecidableEq

structure Session where
  hasReachedPeak : Bool
  lastRepTime : ℤ
  repCount : ℕ
  lastState : String
deriving DecidableEq

structure FormOut where
  feedback : String
  formOk : Option Bool
  state : String
  session : Session
deriving DecidableEq

def initSession : Session :=
  { hasReachedPeak := false, lastRepTime := 0, repCount := 0, lastState := "ready" }

/- ---------------------------------------------------------------- -/
/- String helpers: JS `String.prototype.includes` and `toLowerCase`  -/
/- ---------------------------------------------------------------- -/

def startsWithChars : List Char → List Char → Bool
  | [], _ => true
  | _ :: _, [] => false
  | p :: ps, c :: cs => p == c && startsWithChars ps cs

def containsSubChars (pat : List Char) : List Char → Bool
  | [] => startsWithChars pat []
  | c :: cs => startsWithChars pat (c :: cs) || containsSubChars pat cs

def strHas (s pat : String) : Bool := containsSubChars pat.data s.data

def lowerHas (s pat : String) : Bool :=
  containsSubChars pat.data (s.data.map Char.toLower)

def lowerName (s : String) : String := String.mk (s.data.map Char.toLower)

/- ---------------------------------------------------------------- -/
/- Exercise-name classification (analyzeExerciseForm)                -/
/- ---------------------------------------------------------------- -/

def isLiftingExercise {α : Type} (e : ExerciseData α) : Bool :=
  lowerHas e.exerciseName ("abduction") || lowerHas e.exerciseName ("flexion") ||
    lowerHas e.exerciseName ("raise") || lowerHas e.exerciseName ("extension")

def isCurlingExercise {α : Type} (e : ExerciseData α) : Bool :=
  lowerHas e.exerciseName ("curl") || lowerHas e.exerciseName ("bicep")

def isLegExercise {α : Type} (e : ExerciseData α) : Bool :=
  lowerHas e.exerciseName ("squat") || lowerHas e.exerciseName ("lunge") ||
    lowerHas e.exerciseName ("hip") || lowerHas e.exerciseName ("leg")

def gerundOf {α : Type} (e : ExerciseData α) : String :=
  if isLegExercise e then
    (if lowerHas e.exerciseName ("squat") then "squatting"
     else if lowerHas e.exerciseName ("lunge") then "lunging" else "lifting")
  else if isCurlingExercise e then "curling" else "lifting"

def bodyPartOf {α : Type} (e : ExerciseData α) : String :=
  if isLegExercise e then "leg" else if isCurlingExercise e then "forearm" else "arm"

/- ---------------------------------------------------------------- -/
/- Keypoint-index mirroring                                          -/
/- ---------------------------------------------------------------- -/

/- The left-to-right index map applied to the primary-angle points in
   analyzeArmExercise (11→12, 13→14, 15→16, 23→24, 25→26). -/
def adjustAnglePoint (arm : Side) (p : ℕ) : ℕ :=
  if arm = Side.right then
    (if p = 11 then 12 else if p = 13 then 14 else if p = 15 then 16
     else if p = 23 then 24 else if p = 25 then 26 else p)
  else p

/- The left-to-right index map applied to formCheck keypoints in
   analyzeExerciseForm (additionally maps 27→28). -/
def adjustCheckPoint (arm : Side) (p : ℕ) : ℕ :=
  if arm = Side.right then
    (if p = 11 then 12 else if p = 13 then 14 else if p = 15 then 16
     else if p = 23 then 24 else if p = 25 then 26 else if p = 27 then 28 else p)
  else p

def resolveAnglePoints (arm : Side) (pts : ℕ × ℕ × ℕ) : ℕ × ℕ × ℕ :=
  (adjustAnglePoint arm pts.1, adjustAnglePoint arm pts.2.1, adjustAnglePoint arm pts.2.2)

/- ---------------------------------------------------------------- -/
/- Rep counting and phase logic (analyzeExerciseForm)                -/
/- ---------------------------------------------------------------- -/

variable {α : Type} [LinearOrderedField α]

def isInOptimalPeakB (e : ExerciseData α) (angle : α) : Bool :=
  if isLegExercise e then
    (if lowerHas e.exerciseName ("squat") then
       decide (e.targetRanges.optimalPeak.1 ≤ angle) && decide (angle ≤ e.targetRanges.optimalPeak.2)
     else
       decide (e.targetRanges.optimalPeak.1 ≤ angle) && decide (angle ≤ e.targetRanges.optimalPeak.2))
  else
    (isLiftingExercise e && decide (e.targetRanges.optimalPeak.1 ≤ angle) &&
        decide (angle ≤ e.targetRanges.optimalPeak.2)) ||
      (isCurlingExercise e && decide (e.targetRanges.optimalPeak.1 ≤ angle) &&
        decide (angle ≤ e.targetRanges.optimalPeak.2))

def repCountStep (e : ExerciseData α) (angle : α) (t : ℤ) (s : Session) : Session :=
  if isInOptimalPeakB e angle && !s.hasReachedPeak && decide (t - s.lastRepTime > 1000) then
    { s with hasReachedPeak := true, lastRepTime := t, repCount := s.repCount + 1 }
  else s

def isInStartingPositionB (e : ExerciseData α) (angle : α) : Bool :=
  if isLegExercise e then
    decide (angle ≤ e.targetRanges.startingPosition.2) ||
      decide (angle ≥ e.targetRanges.startingPosition.1)
  else
    (isLiftingExercise e && decide (angle ≤ e.targetRanges.startingPosition.2)) ||
      (isCurlingExercise e && decide (angle ≥ e.targetRanges.startingPosition.1))

def peakResetStep (e : ExerciseData α) (angle : α) (s : Session) : Session :=
  if isInStartingPositionB e angle && s.hasReachedPeak then
    { s with hasReachedPeak := false }
  else s

def phaseFeedback (e : ExerciseData α) (angle : α) (repCount : ℕ) : String × Bool × String :=
  if isInOptimalPeakB e angle then
    ("✅ Excellent! Rep " ++ toString repCount ++ " completed - Full range achieved",
      true, gerundOf e)
  else if isLegExercise e then
    (if lowerHas e.exerciseName ("squat") && decide (angle < e.targetRanges.optimalPeak.1) then
       ("📈 Go deeper! Squat down more to reach full range", true, gerundOf e)
     else if decide (angle > e.repThresholds.liftingMin) then
       ("📈 Keep going! " ++
          (if gerundOf e == "squatting" then "Go deeper" else "Continue movement"),
         true, gerundOf e)
     else
       ("🏁 Ready position. Begin " ++ lowerName e.exerciseName, true, "ready"))
  else if (isLiftingExercise e && decide (angle > e.repThresholds.liftingMin)) ||
      (isCurlingExercise e && decide (angle < e.repThresholds.liftingMin)) then
    ("📈 Keep going! " ++ (if isLiftingExercise e then "Raise" else "Curl") ++
       " your " ++ bodyPartOf e ++ " " ++
       (if isLiftingExercise e then "higher" else "more"),
      true, gerundOf e)
  else if isInStartingPositionB e angle then
    ("🏁 Ready position. Begin " ++ lowerName e.exerciseName, true, "ready")
  else
    ("📈 Start your movement", true, "ready")

/- ---------------------------------------------------------------- -/
/- Form checks (analyzeExerciseForm, forEach over formChecks)        -/
/- ---------------------------------------------------------------- -/

def sideSel (arm : Side) (l r : ℕ) : ℕ := if arm = Side.left then l else r

def runFormCheck (landmarks : Frame α) (arm : Side) (gerund st : String)
    (check : FormCheck) : Bool :=
  let adjustedKeypoints := check.keypoints.map (adjustCheckPoint arm)
  let present := (adjustedKeypoints.map landmarks).reduceOption
  if present.length ≥ 2 then
    if strHas check.condition ("wrist higher than shoulder") && st == gerund then
      (match landmarks (sideSel arm 11 12), landmarks (sideSel arm 15 16) with
       | some shoulder, some wrist => decide (wrist.y < shoulder.y - 1/10)
       | _, _ => false)
    else if strHas check.condition ("elbow below shoulder") && st == gerund then
      (match landmarks (sideSel arm 11 12), landmarks (sideSel arm 13 14) with
       | some shoulder, some elbow => decide (elbow.y > shoulder.y + 1/20)
       | _, _ => false)
    else if strHas check.condition ("knee alignment") && st == gerund then
      (match landmarks (sideSel arm 23 24), landmarks (sideSel arm 25 26),
           landmarks (sideSel arm 27 28) with
       | some _, some knee, some ankle => decide (|knee.x - ankle.x| > 1/10)
       | _, _, _ => false)
    else if strHas check.condition ("back straight") && st == gerund then
      (match landmarks (sideSel arm 11 12), landmarks (sideSel arm 23 24) with
       | some shoulder, some hip => decide (|shoulder.x - hip.x| > 3/20)
       | _, _ => false)
    else if strHas check.condition ("Elbow moving off thigh") && st == gerund then
      true
    else false
  else false

def applyFormChecks (checks : List FormCheck) (landmarks : Frame α) (arm : Side)
    (gerund st : String) (init : String × Option Bool) : String × Option Bool :=
  checks.foldl
    (fun acc check =>
      if runFormCheck landmarks arm gerund st check then
        ("⚠️ " ++ check.errorMessage, some false)
      else acc)
    init

/- ---------------------------------------------------------------- -/
/- Per-frame analysis (analyzeExerciseForm)                          -/
/- ---------------------------------------------------------------- -/

def analyzeExerciseForm (exerciseStarted : Bool) (angle : α) (landmarks : Frame α)
    (e : ExerciseData α) (detectedArm : Side) (currentTime : ℤ) (s : Session) : FormOut :=
  if !exerciseStarted then
    { feedback := "Click \"Start Exercise\" to begin tracking your movements",
      formOk := none, state := s.lastState, session := s }
  else
    let s1 := repCountStep e angle currentTime s
    let s2 := peakResetStep e angle s1
    let pf := phaseFeedback e angle s1.repCount
    let r := applyFormChecks e.formChecks landmarks detectedArm (gerundOf e) pf.2.2
      (pf.1, some pf.2.1)
    { feedback := r.1, formOk := r.2, state := pf.2.2,
      session := { s2 with lastState := pf.2.2 } }

def runFrames (e : ExerciseData α) (frames : List (α × ℤ)) (s : Session) : Session :=
  frames.foldl
    (fun acc f => (analyzeExerciseForm true f.1 (fun _ => none) e Side.left f.2 acc).session)
    s

/- ---------------------------------------------------------------- -/
/- Default exercise configuration (client-side fallback)             -/
/- ---------------------------------------------------------------- -/

def defaultExercise : ExerciseData α :=
  { exerciseName := "Shoulder Abduction",
    description := "Basic shoulder abduction exercise for shoulder mobility",
    steps := ["Stand facing the camera", "Keep your arm straight",
      "Slowly lift your arm to the side", "Raise until horizontal (90\xc2\xb0)",
      "Lower slowly and controlled", "Repeat for desired reps"],
    targetKeypoints := [11, 13, 15, 23],
    primaryAngle := { points := (23, 11, 13), name := "Shoulder Abduction Angle" },
    targetRanges :=
      { startingPosition := (0, 45), targetRange := (90, 180), optimalPeak := (90, 120) },
    formChecks :=
      [{ condition := "wrist higher than shoulder",
         errorMessage := "Keep your arm horizontal, don\x27t lift too high",
         keypoints := [11, 15] },
       { condition := "elbow below shoulder",
         errorMessage := "Keep your elbow level with your shoulder",
         keypoints := [11, 13] }],
    repThresholds := { liftingMin := 60, loweringMax := 75, restMax := 45 } }

/- ---------------------------------------------------------------- -/
/- Recommendation-route config validation                            -/
/- ---------------------------------------------------------------- -/

structure ExerciseTemplate (α : Type) where
  anglePoints : ℕ × ℕ × ℕ
  targetRanges : TargetRanges α
  repThresholds : RepThresholds α

def shoulderAbductionTpl : ExerciseTemplate α :=
  { anglePoints := (23, 11, 13),
    targetRanges :=
      { startingPosition := (0, 45), targetRange := (90, 180), optimalPeak := (160, 180) },
    repThresholds := { liftingMin := 90, loweringMax := 60, restMax := 30 } }

def shoulderFlexionTpl : ExerciseTemplate α :=
  { anglePoints := (23, 11, 13),
    targetRanges :=
      { startingPosition := (0, 30), targetRange := (90, 180), optimalPeak := (160, 180) },
    repThresholds := { liftingMin := 90, loweringMax := 60, restMax := 30 } }

def pendulumTpl : ExerciseTemplate α :=
  { anglePoints := (11, 13, 15),
    targetRanges :=
      { startingPosition := (160, 180), targetRange := (90, 160), optimalPeak := (90, 120) },
    repThresholds := { liftingMin := 140, loweringMax := 160, restMax := 175 } }

def armCurlTpl : ExerciseTemplate α :=
  { anglePoints := (11, 13, 15),
    targetRanges :=
      { startingPosition := (160, 180), targetRange := (30, 90), optimalPeak := (30, 60) },
    repThresholds := { liftingMin := 120, loweringMax := 150, restMax := 170 } }

def legRaiseTpl : ExerciseTemplate α :=
  { anglePoints := (12, 24, 26),
    targetRanges :=
      { startingPosition := (160, 180), targetRange := (90, 160), optimalPeak := (90, 120) },
    repThresholds := { liftingMin := 140, loweringMax := 160, restMax := 175 } }

def matchTemplate (name : String) : Option (ExerciseTemplate α) :=
  if lowerHas name ("abduction") || lowerHas name ("side") then some shoulderAbductionTpl
  else if lowerHas name ("flexion") || lowerHas name ("forward") then some shoulderFlexionTpl
  else if lowerHas name ("pendulum") || lowerHas name ("swing") then some pendulumTpl
  else if lowerHas name ("curl") || lowerHas name ("bicep") || lowerHas name ("biceps") then
    some armCurlTpl
  else if lowerHas name ("leg") && lowerHas name ("raise") then some legRaiseTpl
  else none

/- The threshold-ordering repair inside validateAndCorrectExercise. -/
def fixThresholds (t : RepThresholds α) : RepThresholds α :=
  if t.liftingMin ≥ t.loweringMax ∨ t.loweringMax ≥ t.restMax then
    { liftingMin := min t.liftingMin (min t.loweringMax t.restMax),
      loweringMax := max (min t.liftingMin t.loweringMax) (min t.loweringMax t.restMax),
      restMax := max t.liftingMin (max t.loweringMax t.restMax) }
  else t

def validateAndCorrectExercise (e : ExerciseData α) : ExerciseData α :=
  let e1 :=
    match matchTemplate e.exerciseName with
    | some tpl =>
        { e with primaryAngle := { e.primaryAngle with points := tpl.anglePoints },
                 targetRanges := tpl.targetRanges, repThresholds := tpl.repThresholds }
    | none => e
  { e1 with repThresholds := fixThresholds e1.repThresholds }

/-- Ascending sort of the three rep thresholds, written with min and max.
Modelled from the spec: the spec asks the load-time correction to reassign
the triple to its ascending sort; this definition is the comparison point. -/
def sortedThresholds (a b c : α) : RepThresholds α :=
  { liftingMin := min a (min b c),
    loweringMax := max (min a b) (min (max a b) c),
    restMax := max a (max b c) }

/- ---------------------------------------------------------------- -/
/- Joint angle (calculateAngle) and active-arm detection             -/
/- ---------------------------------------------------------------- -/

/- Math.atan2(y, x): the argument of the complex number x + y*i. -/
noncomputable def atan2 (y x : ℝ) : ℝ := Complex.arg ⟨x, y⟩

noncomputable def calculateAngle (a b c : Pt ℝ) : ℝ :=
  let radians := atan2 (c.y - b.y) (c.x - b.x) - atan2 (a.y - b.y) (a.x - b.x)
  let angle := |radians * 180 / Real.pi|
  if angle > 180 then 360 - angle else angle

/- One side's movement score in detectActiveArm:
   armHeight*3 + armExtension*2 + |shoulderAngle - 20|, where the shoulder
   angle falls back to the shoulder itself when the hip landmark is absent. -/
noncomputable def movementScore (shoulder elbow wrist : Pt ℝ) (hip : Option (Pt ℝ)) : ℝ :=
  (shoulder.y - wrist.y) * 3 + |wrist.x - shoulder.x| * 2 +
    |calculateAngle (hip.getD shoulder) shoulder elbow - 20|

noncomputable def detectActiveArm (landmarks : Frame ℝ) (detectedArm : Side) : Side :=
  match landmarks 11, landmarks 13, landmarks 15, landmarks 12, landmarks 14, landmarks 16 with
  | some leftShoulder, some leftElbow, some leftWrist,
      some rightShoulder, some rightElbow, some rightWrist =>
    let leftMovementScore := movementScore leftShoulder leftElbow leftWrist (landmarks 23)
    let rightMovementScore := movementScore rightShoulder rightElbow rightWrist (landmarks 24)
    let scoreDifference := |leftMovementScore - rightMovementScore|
    let averageScore := (leftMovementScore + rightMovementScore) / 2
    if scoreDifference > averageScore * (15 / 100) then
      (if rightMovementScore > leftMovementScore then Side.right else Side.left)
    else detectedArm
  | _, _, _, _, _, _ => detectedArm

noncomputable def analyzeArmExercise (currentExercise : Option (ExerciseData ℝ)) (landmarks : Frame ℝ)
    (prevArm : Side) (exerciseStarted : Bool) (t : ℤ) (s : Session) :
    Option (Side × ℝ × FormOut) :=
  let exercise := currentExercise.getD defaultExercise
  let detectedArmLocal := detectActiveArm landmarks prevArm
  let adjustedPoints := resolveAnglePoints detectedArmLocal exercise.primaryAngle.points
  match landmarks adjustedPoints.1, landmarks adjustedPoints.2.1, landmarks adjustedPoints.2.2 with
  | some point1, some vertex, some point2 =>
      let angle := calculateAngle point1 vertex point2
      some (detectedArmLocal, angle,
        analyzeExerciseForm exerciseStarted angle landmarks exercise detectedArmLocal t s)
  | _, _, _ => none

/- ---------------------------------------------------------------- -/
/- Concrete inputs used by the claim theorems                        -/
/- ---------------------------------------------------------------- -/

def emptyFrame : Frame α := fun _ => none

/- An exercise whose name matches none of the category keywords. -/
def plainExercise : ExerciseData ℚ :=
  { exerciseName := "Arm Therapy",
    description := "", steps := [], targetKeypoints := [11, 13, 15, 23],
    primaryAngle := { points := (23, 11, 13), name := "Primary Movement Angle" },
    targetRanges :=
      { startingPosition := (0, 45), targetRange := (90, 180), optimalPeak := (90, 120) },
    formChecks := [],
    repThresholds := { liftingMin := 60, loweringMax := 75, restMax := 45 } }

/- A lifting-category (extension-type) exercise. -/
def raiseExercise : ExerciseData ℚ :=
  { exerciseName := "Arm Raise",
    description := "", steps := [], targetKeypoints := [11, 13, 15, 23],
    primaryAngle := { points := (23, 11, 13), name := "Primary Movement Angle" },
    targetRanges :=
      { startingPosition := (0, 45), targetRange := (90, 180), optimalPeak := (90, 120) },
    formChecks := [],
    repThresholds := { liftingMin := 60, loweringMax := 75, restMax := 45 } }

/- An extension-type exercise with a gap between restMax and liftingMin. -/
def gapExercise : ExerciseData ℚ :=
  { exerciseName := "Knee Extension",
    description := "", steps := [], targetKeypoints := [11, 13, 15, 23],
    primaryAngle := { points := (23, 11, 13), name := "Primary Movement Angle" },
    targetRanges :=
      { startingPosition := (0, 20), targetRange := (90, 180), optimalPeak := (160, 180) },
    formChecks := [],
    repThresholds := { liftingMin := 90, loweringMax := 60, restMax := 30 } }

/- A lifting exercise with two form-check rules that fail together on any
   frame where their keypoints are present during the moving phase. -/
def twoFailExercise : ExerciseData ℚ :=
  { exerciseName := "Arm Raise",
    description := "", steps := [], targetKeypoints := [11, 13, 15, 23],
    primaryAngle := { points := (23, 11, 13), name := "Primary Movement Angle" },
    targetRanges :=
      { startingPosition := (0, 45), targetRange := (90, 180), optimalPeak := (90, 120) },
    formChecks :=
      [{ condition := "Elbow moving off thigh",
         errorMessage := "Keep your elbow anchored on your thigh",
         keypoints := [11, 13] },
       { condition := "Elbow moving off thigh again",
         errorMessage := "Reset your elbow position",
         keypoints := [11, 13] }],
    repThresholds := { liftingMin := 60, loweringMax := 75, restMax := 45 } }

/- A frame on which both rules of twoFailExercise fail. -/
def frameTwoFail : Frame ℚ := fun i =>
  if i = 11 then some { x := 0, y := 0, visibility := 1 }
  else if i = 13 then some { x := 1, y := 1, visibility := 1 }
  else none

/- A leg-category exercise with ascending startingPosition bounds. -/
def legRaiseExercise : ExerciseData ℚ :=
  { exerciseName := "Leg Raise",
    description := "", steps := [], targetKeypoints := [24, 26, 28],
    primaryAngle := { points := (12, 24, 26), name := "Primary Movement Angle" },
    targetRanges :=
      { startingPosition := (160, 180), targetRange := (90, 160), optimalPeak := (90, 120) },
    formChecks := [],
    repThresholds := { liftingMin := 140, loweringMax := 160, restMax := 175 } }

/- ---------------------------------------------------------------- -/
/- Helper lemmas                                                     -/
/- ---------------------------------------------------------------- -/

lemma fixMid_eq (a b c : α) (h : min a c ≤ b) :
    max (min a b) (min b c) = max (min a b) (min (max a b) c) := by
  rcases le_total a b with hab | hab
  · rw [min_eq_left hab, max_eq_right hab]
  · rw [min_eq_right hab, max_eq_left hab]
    rcases le_total b c with hbc | hbc
    · rw [min_eq_left hbc]
      have hb : min a c = b := le_antisymm h (le_min hab hbc)
      rw [hb]
    · rw [min_eq_right hbc, min_eq_right (hbc.trans hab)]

/- ---------------------------------------------------------------- -/
/- C3                                                                -/
/- ---------------------------------------------------------------- -/

/-- C3 (corrected): whenever loweringMax is not strictly below both other
values (min liftingMin restMax ≤ loweringMax), the load-time threshold
correction produces exactly the ascending sort of the input triple; in
particular the descending triple (90, 60, 30) becomes (30, 60, 90).  When
loweringMax is the strict minimum the correction differs from the sort
(see the counterexample). -/
theorem claim_C3 (a b c : α) (h : min a c ≤ b) :
    fixThresholds { liftingMin := a, loweringMax := b, restMax := c } =
      sortedThresholds a b c := by
  by_cases htrig : a ≥ b ∨ b ≥ c
  · rw [fixThresholds, if_pos htrig, sortedThresholds, fixMid_eq a b c h]
  · push_neg at htrig
    rw [fixThresholds, if_neg (by push_neg; exact htrig), sortedThresholds]
    obtain ⟨h1, h2⟩ := htrig
    simp only [RepThresholds.mk.injEq]
    refine ⟨?_, ?_, ?_⟩
    · rw [min_eq_left (le_min h1.le (h1.le.trans h2.le))]
    · rw [min_eq_left h1.le, max_eq_right h1.le, min_eq_left h2.le, max_eq_right h1.le]
    · rw [max_eq_right h2.le, max_eq_right (h1.le.trans h2.le)]

/-- C3 counterexample: on the triple (30, 10, 20) the correction yields
(10, 10, 30), not the ascending sort (10, 20, 30) the claim requires. -/
theorem counterexample_C3 :
    fixThresholds { liftingMin := (30 : ℚ), loweringMax := 10, restMax := 20 } =
        { liftingMin := 10, loweringMax := 10, restMax := 30 } ∧
      sortedThresholds (30 : ℚ) 10 20 =
        { liftingMin := 10, loweringMax := 20, restMax := 30 } ∧
      ¬ (fixThresholds { liftingMin := (30 : ℚ), loweringMax := 10, restMax := 20 } =
        sortedThresholds 30 10 20) := by decide

/-- C3 witness: the claimed example (90, 60, 30) satisfies the side
condition and is corrected to the ascending sort (30, 60, 90). -/
theorem witness_C3 :
    min (90 : ℚ) 30 ≤ 60 ∧
      fixThresholds { liftingMin := (90 : ℚ), loweringMax := 60, restMax := 30 } =
        { liftingMin := 30, loweringMax := 60, restMax := 90 } :=
  ⟨by decide, (claim_C3 90 60 30 (by decide)).trans (by decide)⟩

/- ---------------------------------------------------------------- -/
/- C6                                                                -/
/- ---------------------------------------------------------------- -/

/-- C6 (corrected): resolving to the left side is the identity, and the
primary-angle resolver maps [11, 13, 15, 23] to [12, 14, 16, 24] for the
right side; but only the form-check resolver maps 27 to 28 — the
primary-angle resolver passes 27 through — and right-side indices such as
12 are never mirrored back to the left. -/
theorem claim_C6 :
    (∀ xs : List ℕ, xs.map (adjustAnglePoint Side.left) = xs) ∧
      [11, 13, 15, 23].map (adjustAnglePoint Side.right) = [12, 14, 16, 24] ∧
      adjustCheckPoint Side.right 27 = 28 ∧
      adjustAnglePoint Side.right 27 = 27 ∧
      adjustCheckPoint Side.right 12 = 12 := by
  refine ⟨fun xs => ?_, by decide, by decide, by decide, by decide⟩
  rw [show adjustAnglePoint Side.left = id from funext fun p => rfl, List.map_id]

/-- C6 counterexample: the primary-angle resolver does not apply the
mirror pair 27↔28 — resolving [27] to the right side returns [27], not
the [28] the claim requires. -/
theorem counterexample_C6 :
    [27].map (adjustAnglePoint Side.right) = [27] ∧
      ¬ ([27].map (adjustAnglePoint Side.right) = [28]) := by decide

/- ---------------------------------------------------------------- -/
/- C10                                                               -/
/- ---------------------------------------------------------------- -/

/-- C10: the built-in default exercise carries repThresholds
(60, 75, 45), which violate the ascending invariant; the recommendation
route's correction would repair them (to (30, 60, 90), via the abduction
template), but the per-frame analysis consumes the default config raw: at
angle 50 it reports state "ready" with the raw thresholds and would
report "lifting" with the corrected config. -/
theorem claim_C10 :
    (defaultExercise : ExerciseData ℚ).repThresholds =
        { liftingMin := 60, loweringMax := 75, restMax := 45 } ∧
      ¬ ((defaultExercise : ExerciseData ℚ).repThresholds.liftingMin <
            (defaultExercise : ExerciseData ℚ).repThresholds.loweringMax ∧
          (defaultExercise : ExerciseData ℚ).repThresholds.loweringMax <
            (defaultExercise : ExerciseData ℚ).repThresholds.restMax) ∧
      (validateAndCorrectExercise (defaultExercise : ExerciseData ℚ)).repThresholds =
        { liftingMin := 30, loweringMax := 60, restMax := 90 } ∧
      (analyzeExerciseForm true 50 emptyFrame (defaultExercise : ExerciseData ℚ)
          Side.left 5000 initSession).state = "ready" ∧
      (analyzeExerciseForm true 50 emptyFrame
          (validateAndCorrectExercise (defaultExercise : ExerciseData ℚ))
          Side.left 5000 initSession).state = "lifting" := by decide

lemma peakResetStep_repCount (e : ExerciseData α) (angle : α) (s : Session) :
    (peakResetStep e angle s).repCount = s.repCount := by
  unfold peakResetStep; split <;> rfl

lemma analyzeExerciseForm_session (angle : α) (lm : Frame α) (e : ExerciseData α)
    (arm : Side) (t : ℤ) (s : Session) :
    (analyzeExerciseForm true angle lm e arm t s).session =
      { peakResetStep e angle (repCountStep e angle t s) with
        lastState := (phaseFeedback e angle (repCountStep e angle t s).repCount).2.2 } := rfl

lemma analyzeExerciseForm_repCount (angle : α) (lm : Frame α) (e : ExerciseData α)
    (arm : Side) (t : ℤ) (s : Session) :
    (analyzeExerciseForm true angle lm e arm t s).session.repCount =
      (repCountStep e angle t s).repCount := by
  rw [analyzeExerciseForm_session]
  exact peakResetStep_repCount e angle _

lemma repCountStep_repCount (e : ExerciseData α) (angle : α) (t : ℤ) (s : Session) :
    (repCountStep e angle t s).repCount =
      if isInOptimalPeakB e angle && !s.hasReachedPeak && decide (t - s.lastRepTime > 1000)
      then s.repCount + 1 else s.repCount := by
  unfold repCountStep; split <;> simp [*]

lemma isInOptimalPeakB_iff (e : ExerciseData α) (angle : α)
    (hcat : isLegExercise e = true ∨ isLiftingExercise e = true ∨ isCurlingExercise e = true) :
    isInOptimalPeakB e angle = true ↔
      e.targetRanges.optimalPeak.1 ≤ angle ∧ angle ≤ e.targetRanges.optimalPeak.2 := by
  cases hleg : isLegExercise e with
  | true => simp [isInOptimalPeakB, hleg]
  | false =>
    cases hlift : isLiftingExercise e with
    | true =>
      cases hcurl : isCurlingExercise e <;>
        simp [isInOptimalPeakB, hleg, hlift, hcurl]
    | false =>
      cases hcurl : isCurlingExercise e with
      | true => simp [isInOptimalPeakB, hleg, hlift, hcurl]
      | false => rcases hcat with h | h | h <;> simp_all

/- ---------------------------------------------------------------- -/
/- C1                                                                -/
/- ---------------------------------------------------------------- -/

lemma analyzeExerciseForm_hold (e : ExerciseData α) (angle : α) (lm : Frame α)
    (arm : Side) (t : ℤ) (s : Session) (hpk : s.hasReachedPeak = true)
    (hst : isInStartingPositionB e angle = false) :
    (analyzeExerciseForm true angle lm e arm t s).session.repCount = s.repCount ∧
      (analyzeExerciseForm true angle lm e arm t s).session.hasReachedPeak = true := by
  have hrc : repCountStep e angle t s = s := by
    unfold repCountStep
    rw [if_neg (by simp [hpk])]
  constructor
  · rw [analyzeExerciseForm_repCount, hrc]
  · have hproj : (analyzeExerciseForm true angle lm e arm t s).session.hasReachedPeak =
        (peakResetStep e angle (repCountStep e angle t s)).hasReachedPeak := by
      rw [analyzeExerciseForm_session]
    rw [hproj, hrc]
    unfold peakResetStep
    rw [if_neg (by simp [hst])]
    exact hpk

/-- C1 (corrected): for every exercise whose name resolves to a
recognized category (leg, lifting or curling), a rep is counted on a
frame iff the angle lies in optimalPeak, hasReachedPeak is false, and
more than 1000 ms have elapsed since the last counted rep.  Once
hasReachedPeak is set, frames whose angle fails the starting-position
test leave repCount unchanged and keep the flag set, so a hold at peak
counts exactly once for any exercise whose peak angles fail that test —
in particular the lifting exercise "Arm Raise" rise, hold 3000 ms,
return sequence yields exactly 1 rep, not 3.  As stated the claim fails
both for uncategorized names (no rep is ever counted) and for
leg-category exercises, whose tautological starting-position test makes
the same hold re-count each debounce window (see the counterexample). -/
theorem claim_C1 :
    (∀ (e : ExerciseData ℚ) (angle : ℚ) (lm : Frame ℚ) (arm : Side) (t : ℤ) (s : Session),
      isLegExercise e = true ∨ isLiftingExercise e = true ∨ isCurlingExercise e = true →
      ((analyzeExerciseForm true angle lm e arm t s).session.repCount = s.repCount + 1 ↔
        (e.targetRanges.optimalPeak.1 ≤ angle ∧ angle ≤ e.targetRanges.optimalPeak.2) ∧
          s.hasReachedPeak = false ∧ t - s.lastRepTime > 1000)) ∧
    (∀ (e : ExerciseData ℚ) (s : Session) (frames : List (ℚ × ℤ)),
      s.hasReachedPeak = true →
      (∀ p ∈ frames, isInStartingPositionB e p.1 = false) →
      (runFrames e frames s).repCount = s.repCount ∧
        (runFrames e frames s).hasReachedPeak = true) ∧
    (runFrames raiseExercise
        [(20, 2000), (70, 2500), (100, 3000), (100, 4000), (100, 5500), (100, 6000),
          (20, 7000)] initSession).repCount = initSession.repCount + 1 := by
  refine ⟨?_, ?_, by decide⟩
  · intro e angle lm arm t s hcat
    rw [analyzeExerciseForm_repCount, repCountStep_repCount]
    by_cases h : (isInOptimalPeakB e angle && !s.hasReachedPeak &&
        decide (t - s.lastRepTime > 1000)) = true
    · rw [if_pos h]
      simp only [Bool.and_eq_true, Bool.not_eq_true', decide_eq_true_eq] at h
      obtain ⟨⟨h1, h2⟩, h3⟩ := h
      exact ⟨fun _ => ⟨(isInOptimalPeakB_iff e angle hcat).mp h1, h2, h3⟩, fun _ => rfl⟩
    · rw [if_neg h]
      constructor
      · intro hc; exact absurd hc (by omega)
      · rintro ⟨hp, hf, ht⟩
        refine absurd ?_ h
        simp only [Bool.and_eq_true, Bool.not_eq_true', decide_eq_true_eq]
        exact ⟨⟨(isInOptimalPeakB_iff e angle hcat).mpr hp, hf⟩, ht⟩
  · intro e s frames
    induction frames generalizing s with
    | nil => intro hpk _; exact ⟨rfl, hpk⟩
    | cons p rest ih =>
      intro hpk hall
      have h1 := analyzeExerciseForm_hold e p.1 (fun _ => none) Side.left p.2 s hpk
        (hall p (List.mem_cons_self p rest))
      have hrun : runFrames e (p :: rest) s =
          runFrames e rest
            (analyzeExerciseForm true p.1 (fun _ => none) e Side.left p.2 s).session := rfl
      rw [hrun]
      have h2 := ih (analyzeExerciseForm true p.1 (fun _ => none) e Side.left p.2 s).session
        h1.2 (fun q hq => hall q (List.mem_cons_of_mem p hq))
      exact ⟨h2.1.trans h1.1, h2.2⟩

/-- C1 counterexample: the claim fails in both directions for arbitrary
started exercises.  For the uncategorized name "Arm Therapy" a frame
with angle 100 inside optimalPeak (90, 120), hasReachedPeak false and
4000 ms elapsed does NOT increment repCount; and for the leg exercise
"Leg Raise" the synthetic sequence that rises into optimalPeak, holds
there 3000 ms and returns to startingPosition yields 3 reps, not the
exactly 1 the claim requires. -/
theorem counterexample_C1 :
    ((90 : ℚ) ≤ 100 ∧ (100 : ℚ) ≤ 120) ∧ initSession.hasReachedPeak = false ∧
      ((5000 : ℤ) - initSession.lastRepTime > 1000) ∧
      plainExercise.targetRanges.optimalPeak = (90, 120) ∧
      (analyzeExerciseForm true 100 emptyFrame plainExercise Side.left 5000
          initSession).session.repCount = initSession.repCount ∧
      legRaiseExercise.targetRanges.optimalPeak = (90, 120) ∧
      (runFrames legRaiseExercise
          [(170, 2000), (130, 2500), (100, 3000), (100, 4500), (100, 6000), (170, 7000)]
          initSession).repCount = 3 := by decide

/-- C1 witness: the iff applied to the lifting exercise "Arm Raise" at
angle 100, time 5000, fresh session counts the rep; and the
hold-invariance part applied to two further held frames after a counted
rep leaves repCount at 1. -/
theorem witness_C1 :
    (analyzeExerciseForm true 100 emptyFrame raiseExercise Side.left 5000
        initSession).session.repCount = initSession.repCount + 1 ∧
      (runFrames raiseExercise [(100, 4000), (100, 5500)]
          { hasReachedPeak := true, lastRepTime := 3000, repCount := 1,
            lastState := "lifting" }).repCount = 1 :=
  ⟨(claim_C1.1 raiseExercise 100 emptyFrame Side.left 5000 initSession
      (Or.inr (Or.inl (by decide)))).mpr ⟨by decide, by decide, by decide⟩,
    (claim_C1.2.1 raiseExercise
        { hasReachedPeak := true, lastRepTime := 3000, repCount := 1,
          lastState := "lifting" }
        [(100, 4000), (100, 5500)] rfl (by decide)).1⟩

/- ---------------------------------------------------------------- -/
/- C4                                                                -/
/- ---------------------------------------------------------------- -/

/-- C4 (corrected): for an extension-type (lifting, non-leg, non-curl)
exercise the per-frame state is "lifting" exactly when the angle is in
optimalPeak or exceeds liftingMin, and "ready" otherwise; in particular
an angle in the gap between restMax and liftingMin classifies as
"ready", not moving, and restMax is never consulted — the ready branch
tests startingPosition[1], with a final default of "ready". -/
theorem claim_C4 (e : ExerciseData ℚ) (angle : ℚ) (lm : Frame ℚ) (arm : Side) (t : ℤ)
    (s : Session) (hlift : isLiftingExercise e = true) (hleg : isLegExercise e = false)
    (hcurl : isCurlingExercise e = false) :
    (analyzeExerciseForm true angle lm e arm t s).state =
      if (e.targetRanges.optimalPeak.1 ≤ angle ∧ angle ≤ e.targetRanges.optimalPeak.2) ∨
          e.repThresholds.liftingMin < angle
      then "lifting" else "ready" := by
  have hst : (analyzeExerciseForm true angle lm e arm t s).state =
      (phaseFeedback e angle (repCountStep e angle t s).repCount).2.2 := rfl
  have hg : gerundOf e = "lifting" := by simp [gerundOf, hleg, hcurl]
  have hpk := isInOptimalPeakB_iff e angle (Or.inr (Or.inl hlift))
  rw [hst]
  unfold phaseFeedback
  by_cases hp : e.targetRanges.optimalPeak.1 ≤ angle ∧ angle ≤ e.targetRanges.optimalPeak.2
  · rw [if_pos (hpk.mpr hp), if_pos (Or.inl hp)]
    exact hg
  · have hb : isInOptimalPeakB e angle = false :=
      Bool.eq_false_iff.mpr fun hh => hp (hpk.mp hh)
    rw [if_neg (by simp [hb]), if_neg (by simp [hleg])]
    by_cases hm : e.repThresholds.liftingMin < angle
    · have hc : ((isLiftingExercise e && decide (angle > e.repThresholds.liftingMin)) ||
          (isCurlingExercise e && decide (angle < e.repThresholds.liftingMin))) = true := by
        simp [hlift, hcurl]; exact hm
      rw [if_pos (by simpa using hc), if_pos (Or.inr hm)]
      exact hg
    · have hc : ((isLiftingExercise e && decide (angle > e.repThresholds.liftingMin)) ||
          (isCurlingExercise e && decide (angle < e.repThresholds.liftingMin))) = false := by
        simp [hlift, hcurl]; exact le_of_not_lt hm
      rw [if_neg (by simp [hc]),
        if_neg (show ¬((e.targetRanges.optimalPeak.1 ≤ angle ∧
            angle ≤ e.targetRanges.optimalPeak.2) ∨ e.repThresholds.liftingMin < angle) from
          by rintro (h | h); exacts [hp h, hm h])]
      cases hstart : isInStartingPositionB e angle <;> simp [hstart]

/-- C4 counterexample: for the extension-type exercise "Knee Extension"
with restMax 30 and liftingMin 90, the gap angle 60 is classified
"ready" by the code, while the claim requires the moving phase there. -/
theorem counterexample_C4 :
    gapExercise.repThresholds.restMax < (60 : ℚ) ∧ (60 : ℚ) ≤ gapExercise.repThresholds.liftingMin ∧
      (analyzeExerciseForm true 60 emptyFrame gapExercise Side.left 5000
          initSession).state = "ready" ∧
      gerundOf gapExercise = "lifting" ∧ ¬ (("ready" : String) = "lifting") := by decide

/-- C4 witness: the amended classification applied to "Knee Extension"
at the gap angle 60 gives "ready". -/
theorem witness_C4 :
    (analyzeExerciseForm true 60 emptyFrame gapExercise Side.left 5000 initSession).state =
      if ((160 : ℚ) ≤ 60 ∧ (60 : ℚ) ≤ 180) ∨ (90 : ℚ) < 60 then "lifting" else "ready" :=
  claim_C4 gapExercise 60 emptyFrame Side.left 5000 initSession (by decide) (by decide)
    (by decide)

/- ---------------------------------------------------------------- -/
/- C9                                                                -/
/- ---------------------------------------------------------------- -/

/-- C9: for a leg-category exercise whose startingPosition bounds are
ascending, the starting-position test is a tautology, so hasReachedPeak
is false after every analyzed frame, and a frame with the angle inside
optimalPeak and more than 1000 ms elapsed increments repCount again;
holding a leg exercise at the peak yields one rep per debounce interval
(three frames 2000 ms apart give repCount 3). -/
theorem claim_C9 :
    (∀ (e : ExerciseData ℚ) (angle : ℚ) (lm : Frame ℚ) (arm : Side) (t : ℤ) (s : Session),
      isLegExercise e = true →
      e.targetRanges.startingPosition.1 ≤ e.targetRanges.startingPosition.2 →
      ((analyzeExerciseForm true angle lm e arm t s).session.hasReachedPeak = false ∧
        (s.hasReachedPeak = false →
          e.targetRanges.optimalPeak.1 ≤ angle → angle ≤ e.targetRanges.optimalPeak.2 →
          t - s.lastRepTime > 1000 →
          (analyzeExerciseForm true angle lm e arm t s).session.repCount =
            s.repCount + 1))) ∧
    (runFrames legRaiseExercise [(100, 2000), (100, 4000), (100, 6000)]
        initSession).repCount = 3 := by
  constructor
  · intro e angle lm arm t s hleg hsp
    have hstart : isInStartingPositionB e angle = true := by
      simp only [isInStartingPositionB, hleg, if_true, Bool.or_eq_true, decide_eq_true_eq]
      rcases le_total angle e.targetRanges.startingPosition.2 with h | h
      · exact Or.inl h
      · exact Or.inr (hsp.trans h)
    constructor
    · have hs : (analyzeExerciseForm true angle lm e arm t s).session.hasReachedPeak =
          (peakResetStep e angle (repCountStep e angle t s)).hasReachedPeak := by
        rw [analyzeExerciseForm_session]
      rw [hs]
      unfold peakResetStep
      cases h1 : (repCountStep e angle t s).hasReachedPeak <;> simp [hstart, h1]
    · intro hf hp1 hp2 ht
      rw [analyzeExerciseForm_repCount, repCountStep_repCount, if_pos]
      simp only [Bool.and_eq_true, Bool.not_eq_true', decide_eq_true_eq]
      exact ⟨⟨(isInOptimalPeakB_iff e angle (Or.inl hleg)).mpr ⟨hp1, hp2⟩, hf⟩, ht⟩
  · decide

/-- C9 witness: the theorem applied to the leg exercise "Leg Raise"
(startingPosition (160, 180)) at angle 100, time 5000, fresh session:
the flag is cleared and the rep is counted. -/
theorem witness_C9 :
    (analyzeExerciseForm true 100 emptyFrame legRaiseExercise Side.left 5000
        initSession).session.hasReachedPeak = false ∧
      (analyzeExerciseForm true 100 emptyFrame legRaiseExercise Side.left 5000
          initSession).session.repCount = initSession.repCount + 1 := by
  have h := claim_C9.1 legRaiseExercise 100 emptyFrame Side.left 5000 initSession
    (by decide) (by decide)
  exact ⟨h.1, h.2 (by decide) (by decide) (by decide) (by decide)⟩

lemma applyFormChecks_eq (lm : Frame α) (arm : Side) (g st : String) :
    ∀ (checks : List FormCheck) (init : String × Option Bool),
      applyFormChecks checks lm arm g st init =
        match (checks.filter (fun ch => runFormCheck lm arm g st ch)).getLast? with
        | some c => ("⚠️ " ++ c.errorMessage, some false)
        | none => init := by
  intro checks
  induction checks with
  | nil => intro init; rfl
  | cons ch rest ih =>
    intro init
    have hfold : applyFormChecks (ch :: rest) lm arm g st init =
        applyFormChecks rest lm arm g st
          (if runFormCheck lm arm g st ch then ("⚠️ " ++ ch.errorMessage, some false)
           else init) := rfl
    rw [hfold, ih]
    by_cases h : runFormCheck lm arm g st ch = true
    · rw [if_pos h]
      have hfil : (ch :: rest).filter (fun c => runFormCheck lm arm g st c) =
          ch :: rest.filter (fun c => runFormCheck lm arm g st c) := by
        simp [List.filter_cons, h]
      rw [hfil]
      cases hl : rest.filter (fun c => runFormCheck lm arm g st c) with
      | nil => rfl
      | cons c2 l2 =>
        rw [List.getLast?_cons_cons]
        cases hg2 : (c2 :: l2).getLast? with
        | none => exact absurd hg2 (by simp)
        | some c3 => rfl
    · rw [if_neg h]
      have hfil : (ch :: rest).filter (fun c => runFormCheck lm arm g st c) =
          rest.filter (fun c => runFormCheck lm arm g st c) := by
        simp [List.filter_cons, h]
      rw [hfil]

/- ---------------------------------------------------------------- -/
/- C5                                                                -/
/- ---------------------------------------------------------------- -/

/-- C5 (corrected): when at least one configured form-check rule fails
on a frame, the displayed feedback message is the errorMessage of the
LAST failing rule in the formChecks list (each later failure overwrites
the message), and formOk is false.  The claim's "first failing rule
wins" is refuted by the counterexample. -/
theorem claim_C5 (e : ExerciseData ℚ) (angle : ℚ) (lm : Frame ℚ) (arm : Side) (t : ℤ)
    (s : Session) (c : FormCheck)
    (hlast : (e.formChecks.filter (fun ch => runFormCheck lm arm (gerundOf e)
        (phaseFeedback e angle (repCountStep e angle t s).repCount).2.2 ch)).getLast? =
      some c) :
    (analyzeExerciseForm true angle lm e arm t s).feedback = "⚠️ " ++ c.errorMessage ∧
      (analyzeExerciseForm true angle lm e arm t s).formOk = some false := by
  have hfb : (analyzeExerciseForm true angle lm e arm t s).feedback =
      (applyFormChecks e.formChecks lm arm (gerundOf e)
        (phaseFeedback e angle (repCountStep e angle t s).repCount).2.2
        ((phaseFeedback e angle (repCountStep e angle t s).repCount).1,
          some (phaseFeedback e angle (repCountStep e angle t s).repCount).2.1)).1 := rfl
  have hok : (analyzeExerciseForm true angle lm e arm t s).formOk =
      (applyFormChecks e.formChecks lm arm (gerundOf e)
        (phaseFeedback e angle (repCountStep e angle t s).repCount).2.2
        ((phaseFeedback e angle (repCountStep e angle t s).repCount).1,
          some (phaseFeedback e angle (repCountStep e angle t s).repCount).2.1)).2 := rfl
  rw [hfb, hok, applyFormChecks_eq, hlast]
  exact ⟨rfl, rfl⟩

/-- C5 counterexample: on a frame where both configured rules of
twoFailExercise fail during the moving phase, the displayed message is
the second (last) rule's errorMessage, not the first rule's as the
claim requires, and formOk is false. -/
theorem counterexample_C5 :
    (analyzeExerciseForm true 70 frameTwoFail twoFailExercise Side.left 5000
        initSession).state = "lifting" ∧
      runFormCheck frameTwoFail Side.left (gerundOf twoFailExercise) "lifting"
        { condition := "Elbow moving off thigh",
          errorMessage := "Keep your elbow anchored on your thigh",
          keypoints := [11, 13] } = true ∧
      runFormCheck frameTwoFail Side.left (gerundOf twoFailExercise) "lifting"
        { condition := "Elbow moving off thigh again",
          errorMessage := "Reset your elbow position",
          keypoints := [11, 13] } = true ∧
      (analyzeExerciseForm true 70 frameTwoFail twoFailExercise Side.left 5000
          initSession).feedback = "⚠️ Reset your elbow position" ∧
      ¬ ((analyzeExerciseForm true 70 frameTwoFail twoFailExercise Side.left 5000
          initSession).feedback = "⚠️ Keep your elbow anchored on your thigh") ∧
      (analyzeExerciseForm true 70 frameTwoFail twoFailExercise Side.left 5000
          initSession).formOk = some false := by decide

/-- C5 witness: the amended last-failing-rule theorem applied to
twoFailExercise on the frame where both rules fail. -/
theorem witness_C5 :
    (analyzeExerciseForm true 70 frameTwoFail twoFailExercise Side.left 5000
        initSession).feedback = "⚠️ Reset your elbow position" ∧
      (analyzeExerciseForm true 70 frameTwoFail twoFailExercise Side.left 5000
          initSession).formOk = some false := by
  have h := claim_C5 twoFailExercise 70 frameTwoFail Side.left 5000 initSession
    { condition := "Elbow moving off thigh again",
      errorMessage := "Reset your elbow position", keypoints := [11, 13] } (by decide)
  exact ⟨h.1, h.2⟩

/- ---------------------------------------------------------------- -/
/- atan2 and calculateAngle value lemmas                             -/
/- ---------------------------------------------------------------- -/

lemma atan2_bounds (y x : ℝ) : -Real.pi < atan2 y x ∧ atan2 y x ≤ Real.pi :=
  ⟨Complex.neg_pi_lt_arg _, Complex.arg_le_pi _⟩

lemma atan2_zero_one : atan2 0 1 = 0 := by
  rw [atan2, show (⟨1, 0⟩ : ℂ) = 1 from Complex.ext (by simp) (by simp), Complex.arg_one]

lemma atan2_one_zero : atan2 1 0 = Real.pi / 2 := by
  rw [atan2, show (⟨0, 1⟩ : ℂ) = Complex.I from Complex.ext (by simp) (by simp),
    Complex.arg_I]

lemma atan2_zero_neg_one : atan2 0 (-1) = Real.pi := by
  rw [atan2, show (⟨-1, 0⟩ : ℂ) = -1 from Complex.ext (by simp) (by simp),
    Complex.arg_neg_one]

lemma calculateAngle_right_angle (va vb vc : ℝ) :
    calculateAngle { x := 0, y := 1, visibility := va } { x := 0, y := 0, visibility := vb }
      { x := 1, y := 0, visibility := vc } = 90 := by
  have hpi := Real.pi_ne_zero
  unfold calculateAngle
  norm_num [atan2_zero_one, atan2_one_zero]
  have h : -(Real.pi / 2 * 180) / Real.pi = -90 := by field_simp; ring
  rw [h]
  norm_num

lemma calculateAngle_straight (va vb vc : ℝ) :
    calculateAngle { x := -1, y := 0, visibility := va } { x := 0, y := 0, visibility := vb }
      { x := 1, y := 0, visibility := vc } = 180 := by
  have hpi := Real.pi_ne_zero
  unfold calculateAngle
  norm_num [atan2_zero_one, atan2_zero_neg_one]
  have h : -(Real.pi * 180) / Real.pi = -180 := by field_simp; ring
  rw [h]
  norm_num

/- ---------------------------------------------------------------- -/
/- C8                                                                -/
/- ---------------------------------------------------------------- -/

/-- C8: for all 2D points a, b, c the joint angle computed by
calculateAngle — the absolute atan2 difference in degrees, reflected at
180 — lies in the closed interval [0, 180]. -/
theorem claim_C8 (a b c : Pt ℝ) :
    0 ≤ calculateAngle a b c ∧ calculateAngle a b c ≤ 180 := by
  have h1 := atan2_bounds (c.y - b.y) (c.x - b.x)
  have h2 := atan2_bounds (a.y - b.y) (a.x - b.x)
  have hpi : (0 : ℝ) < Real.pi := Real.pi_pos
  set r := atan2 (c.y - b.y) (c.x - b.x) - atan2 (a.y - b.y) (a.x - b.x) with hr
  have habs : |r| < 2 * Real.pi :=
    abs_lt.mpr ⟨by rw [hr]; linarith [h1.1, h2.2], by rw [hr]; linarith [h1.2, h2.1]⟩
  have hlt : |r * 180 / Real.pi| < 360 := by
    rw [abs_div, abs_mul, abs_of_pos hpi, abs_of_nonneg (by norm_num : (0 : ℝ) ≤ 180)]
    rw [div_lt_iff₀ hpi]
    have := mul_lt_mul_of_pos_right habs (by norm_num : (0 : ℝ) < 180)
    linarith
  have hcalc : calculateAngle a b c =
      if |r * 180 / Real.pi| > 180 then 360 - |r * 180 / Real.pi|
      else |r * 180 / Real.pi| := rfl
  rw [hcalc]
  split
  · next h => exact ⟨by linarith, by linarith⟩
  · next h => exact ⟨abs_nonneg _, by linarith [not_lt.mp h]⟩

/- ---------------------------------------------------------------- -/
/- C7                                                                -/
/- ---------------------------------------------------------------- -/

lemma movementScore_pos (v1 v2 v3 vh : ℝ) :
    movementScore { x := 0, y := 0, visibility := v1 } { x := 1, y := 0, visibility := v2 }
      { x := 1, y := -1, visibility := v3 }
      (some { x := -1, y := 0, visibility := vh }) = 165 := by
  unfold movementScore
  rw [show (some { x := -1, y := 0, visibility := vh } : Option (Pt ℝ)).getD
      { x := 0, y := 0, visibility := v1 } = { x := -1, y := 0, visibility := vh } from rfl]
  rw [calculateAngle_straight]
  norm_num

lemma movementScore_neg (v1 v2 v3 vh : ℝ) :
    movementScore { x := 0, y := 0, visibility := v1 } { x := 1, y := 0, visibility := v2 }
      { x := 1, y := 100, visibility := v3 }
      (some { x := -1, y := 0, visibility := vh }) = -138 := by
  unfold movementScore
  rw [show (some { x := -1, y := 0, visibility := vh } : Option (Pt ℝ)).getD
      { x := 0, y := 0, visibility := v1 } = { x := -1, y := 0, visibility := vh } from rfl]
  rw [calculateAngle_straight]
  norm_num

lemma detectActiveArm_eq (lm : Frame ℝ) (prev : Side) (lsh lel lwr rsh rel rwr : Pt ℝ)
    (h11 : lm 11 = some lsh) (h13 : lm 13 = some lel) (h15 : lm 15 = some lwr)
    (h12 : lm 12 = some rsh) (h14 : lm 14 = some rel) (h16 : lm 16 = some rwr) :
    detectActiveArm lm prev =
      if |movementScore lsh lel lwr (lm 23) - movementScore rsh rel rwr (lm 24)| >
          (movementScore lsh lel lwr (lm 23) + movementScore rsh rel rwr (lm 24)) / 2 *
            (15 / 100)
      then (if movementScore rsh rel rwr (lm 24) > movementScore lsh lel lwr (lm 23)
            then Side.right else Side.left)
      else prev := by
  unfold detectActiveArm
  rw [h11, h13, h15, h12, h14, h16]

/-- C7 (corrected): with all six arm landmarks present and a positive
average movement score, the detector retains the previous side when the
score difference is at most 15 percent of the average, and switches to
the strictly higher-scoring side when the difference exceeds that
fraction.  Without the positivity assumption the guard can fire at
exactly equal (negative) scores and return the left side regardless of
the previous side (see the counterexample). -/
theorem claim_C7 (lm : Frame ℝ) (prev : Side) (lsh lel lwr rsh rel rwr : Pt ℝ)
    (h11 : lm 11 = some lsh) (h13 : lm 13 = some lel) (h15 : lm 15 = some lwr)
    (h12 : lm 12 = some rsh) (h14 : lm 14 = some rel) (h16 : lm 16 = some rwr)
    (havg : 0 < (movementScore lsh lel lwr (lm 23) + movementScore rsh rel rwr (lm 24)) / 2) :
    (|movementScore lsh lel lwr (lm 23) - movementScore rsh rel rwr (lm 24)| /
          ((movementScore lsh lel lwr (lm 23) + movementScore rsh rel rwr (lm 24)) / 2) <
        15 / 100 →
      detectActiveArm lm prev = prev) ∧
      (15 / 100 <
          |movementScore lsh lel lwr (lm 23) - movementScore rsh rel rwr (lm 24)| /
            ((movementScore lsh lel lwr (lm 23) + movementScore rsh rel rwr (lm 24)) / 2) →
        (movementScore lsh lel lwr (lm 23) < movementScore rsh rel rwr (lm 24) →
            detectActiveArm lm prev = Side.right) ∧
          (movementScore rsh rel rwr (lm 24) < movementScore lsh lel lwr (lm 23) →
            detectActiveArm lm prev = Side.left)) := by
  have hd := detectActiveArm_eq lm prev lsh lel lwr rsh rel rwr h11 h13 h15 h12 h14 h16
  constructor
  · intro hle
    have hle2 : |movementScore lsh lel lwr (lm 23) - movementScore rsh rel rwr (lm 24)| ≤
        (movementScore lsh lel lwr (lm 23) + movementScore rsh rel rwr (lm 24)) / 2 *
          (15 / 100) := by
      have := (div_lt_iff₀ havg).mp hle
      linarith
    rw [hd, if_neg (not_lt.mpr hle2)]
  · intro hgt
    have hgt2 : (movementScore lsh lel lwr (lm 23) + movementScore rsh rel rwr (lm 24)) / 2 *
          (15 / 100) <
        |movementScore lsh lel lwr (lm 23) - movementScore rsh rel rwr (lm 24)| := by
      have := (lt_div_iff₀ havg).mp hgt
      linarith
    constructor
    · intro hlr
      rw [hd, if_pos hgt2, if_pos hlr]
    · intro hrl
      rw [hd, if_pos hgt2, if_neg (not_lt.mpr hrl.le)]

/- A frame with both arms in identical positions whose movement scores
   are equal and negative (arms hanging far below the shoulders). -/
noncomputable def frameC7neg : Frame ℝ := fun i =>
  if i = 11 then some { x := 0, y := 0, visibility := 1 }
  else if i = 13 then some { x := 1, y := 0, visibility := 1 }
  else if i = 15 then some { x := 1, y := 100, visibility := 1 }
  else if i = 12 then some { x := 0, y := 0, visibility := 1 }
  else if i = 14 then some { x := 1, y := 0, visibility := 1 }
  else if i = 16 then some { x := 1, y := 100, visibility := 1 }
  else if i = 23 then some { x := -1, y := 0, visibility := 1 }
  else if i = 24 then some { x := -1, y := 0, visibility := 1 }
  else none

/- The same frame with the wrists above the shoulders, giving equal
   positive movement scores. -/
noncomputable def frameC7pos : Frame ℝ := fun i =>
  if i = 11 then some { x := 0, y := 0, visibility := 1 }
  else if i = 13 then some { x := 1, y := 0, visibility := 1 }
  else if i = 15 then some { x := 1, y := -1, visibility := 1 }
  else if i = 12 then some { x := 0, y := 0, visibility := 1 }
  else if i = 14 then some { x := 1, y := 0, visibility := 1 }
  else if i = 16 then some { x := 1, y := -1, visibility := 1 }
  else if i = 23 then some { x := -1, y := 0, visibility := 1 }
  else if i = 24 then some { x := -1, y := 0, visibility := 1 }
  else none

/-- C7 counterexample: on a frame with all six landmarks present and
exactly equal (negative) movement scores — relative difference 0, below
the 0.15 threshold — the detector does NOT retain the previous side
'right' but switches to 'left'. -/
theorem counterexample_C7 :
    movementScore { x := 0, y := 0, visibility := (1 : ℝ) } { x := 1, y := 0, visibility := 1 }
        { x := 1, y := 100, visibility := 1 } (frameC7neg 23) = -138 ∧
      movementScore { x := 0, y := 0, visibility := (1 : ℝ) } { x := 1, y := 0, visibility := 1 }
        { x := 1, y := 100, visibility := 1 } (frameC7neg 24) = -138 ∧
      |(-138 : ℝ) - -138| / ((-138 + -138) / 2) < 15 / 100 ∧
      detectActiveArm frameC7neg Side.right = Side.left := by
  have h23 : frameC7neg 23 = some { x := -1, y := 0, visibility := 1 } := rfl
  have h24 : frameC7neg 24 = some { x := -1, y := 0, visibility := 1 } := rfl
  refine ⟨by rw [h23]; exact movementScore_neg 1 1 1 1,
    by rw [h24]; exact movementScore_neg 1 1 1 1, by norm_num, ?_⟩
  rw [detectActiveArm_eq frameC7neg Side.right _ _ _ _ _ _ rfl rfl rfl rfl rfl rfl,
    h23, h24, movementScore_neg]
  norm_num

/-- C7 witness: the amended hysteresis theorem applied to a frame with
equal positive movement scores (165 each): the detector retains the
previous side 'right'. -/
theorem witness_C7 : detectActiveArm frameC7pos Side.right = Side.right := by
  have h23 : frameC7pos 23 = some { x := -1, y := 0, visibility := 1 } := rfl
  have h24 : frameC7pos 24 = some { x := -1, y := 0, visibility := 1 } := rfl
  have h := claim_C7 frameC7pos Side.right
    { x := 0, y := 0, visibility := 1 } { x := 1, y := 0, visibility := 1 }
    { x := 1, y := -1, visibility := 1 } { x := 0, y := 0, visibility := 1 }
    { x := 1, y := 0, visibility := 1 } { x := 1, y := -1, visibility := 1 }
    rfl rfl rfl rfl rfl rfl
    (by rw [h23, h24, movementScore_pos]; norm_num)
  exact h.1 (by rw [h23, h24, movementScore_pos]; norm_num)

/- ---------------------------------------------------------------- -/
/- C2                                                                -/
/- ---------------------------------------------------------------- -/

/-- C2 (corrected): the per-frame arm analysis short-circuits (produces
no result and leaves the session untouched) iff one of the three
resolved primary-angle keypoints is absent from the frame; landmark
visibility is never consulted, so a present vertex with visibility 0.1
is analyzed normally (see the counterexample). -/
theorem claim_C2 (cur : Option (ExerciseData ℝ)) (lm : Frame ℝ) (prev : Side)
    (started : Bool) (t : ℤ) (s : Session)
    (hmiss : lm (resolveAnglePoints (detectActiveArm lm prev)
          (cur.getD defaultExercise).primaryAngle.points).1 = none ∨
        lm (resolveAnglePoints (detectActiveArm lm prev)
          (cur.getD defaultExercise).primaryAngle.points).2.1 = none ∨
        lm (resolveAnglePoints (detectActiveArm lm prev)
          (cur.getD defaultExercise).primaryAngle.points).2.2 = none) :
    analyzeArmExercise cur lm prev started t s = none := by
  simp only [analyzeArmExercise]
  split
  · rcases hmiss with h | h | h <;> simp_all
  · rfl

/- A frame holding only hip 23, shoulder 11 and elbow 13 of the default
   exercise's primary angle, with the vertex (shoulder) at visibility
   0.1; the angle at the shoulder is 90 degrees. -/
noncomputable def frameC2 : Frame ℝ := fun i =>
  if i = 11 then some { x := 0, y := 0, visibility := 1 / 10 }
  else if i = 13 then some { x := 1, y := 0, visibility := 1 }
  else if i = 23 then some { x := 0, y := 1, visibility := 1 }
  else none

/-- C2 counterexample: a frame whose vertex landmark (the shoulder, index
11) is present with visibility 0.1 — below the claimed 0.5 threshold —
is fully analyzed: the result's formOk is `some true`, not null, and
repCount advances from 0 to 1. -/
theorem counterexample_C2 :
    frameC2 11 = some { x := 0, y := 0, visibility := 1 / 10 } ∧
      (1 : ℝ) / 10 < 1 / 2 ∧
      (analyzeArmExercise none frameC2 Side.left true 5000 initSession).map
          (fun o => (o.1, o.2.2.formOk, o.2.2.session.repCount)) =
        some (Side.left, some true, initSession.repCount + 1) := by
  have hlift : isLiftingExercise (defaultExercise : ExerciseData ℝ) = true := rfl
  have hleg : isLegExercise (defaultExercise : ExerciseData ℝ) = false := rfl
  have hcurl : isCurlingExercise (defaultExercise : ExerciseData ℝ) = false := rfl
  have hpk1 : (defaultExercise : ExerciseData ℝ).targetRanges.optimalPeak.1 = 90 := rfl
  have hpk2 : (defaultExercise : ExerciseData ℝ).targetRanges.optimalPeak.2 = 120 := rfl
  have hpeak : isInOptimalPeakB (defaultExercise : ExerciseData ℝ) 90 = true := by
    simp only [isInOptimalPeakB, hleg, hlift, hcurl, hpk1, hpk2]
    norm_num
  have hc : (isInOptimalPeakB (defaultExercise : ExerciseData ℝ) 90 &&
      !initSession.hasReachedPeak &&
      decide ((5000 : ℤ) - initSession.lastRepTime > 1000)) = true := by
    rw [hpeak]; rfl
  have hrep : (analyzeExerciseForm true (90 : ℝ) frameC2 defaultExercise Side.left 5000
      initSession).session.repCount = initSession.repCount + 1 := by
    rw [analyzeExerciseForm_repCount, repCountStep_repCount, if_pos hc]
  have hstate : (phaseFeedback (defaultExercise : ExerciseData ℝ) 90
      (repCountStep (defaultExercise : ExerciseData ℝ) 90 5000 initSession).repCount).2.2 =
      "lifting" := by
    unfold phaseFeedback
    rw [if_pos hpeak]; rfl
  have hfc : (phaseFeedback (defaultExercise : ExerciseData ℝ) 90
      (repCountStep (defaultExercise : ExerciseData ℝ) 90 5000 initSession).repCount).2.1 =
      true := by
    unfold phaseFeedback
    rw [if_pos hpeak]
  have h1 : runFormCheck frameC2 Side.left (gerundOf (defaultExercise : ExerciseData ℝ))
      "lifting"
      { condition := "wrist higher than shoulder",
        errorMessage := "Keep your arm horizontal, don\x27t lift too high",
        keypoints := [11, 15] } = false := rfl
  have h2 : runFormCheck frameC2 Side.left (gerundOf (defaultExercise : ExerciseData ℝ))
      "lifting"
      { condition := "elbow below shoulder",
        errorMessage := "Keep your elbow level with your shoulder",
        keypoints := [11, 13] } = false := by
    have hred : runFormCheck frameC2 Side.left (gerundOf (defaultExercise : ExerciseData ℝ))
        "lifting"
        { condition := "elbow below shoulder",
          errorMessage := "Keep your elbow level with your shoulder",
          keypoints := [11, 13] } = decide ((0 : ℝ) > 0 + 1 / 20) := rfl
    rw [hred]
    exact decide_eq_false (by norm_num)
  have hlist : (defaultExercise : ExerciseData ℝ).formChecks =
      [{ condition := "wrist higher than shoulder",
         errorMessage := "Keep your arm horizontal, don\x27t lift too high",
         keypoints := [11, 15] },
       { condition := "elbow below shoulder",
         errorMessage := "Keep your elbow level with your shoulder",
         keypoints := [11, 13] }] := rfl
  have happ : ∀ init : String × Option Bool,
      applyFormChecks (defaultExercise : ExerciseData ℝ).formChecks frameC2 Side.left
        (gerundOf (defaultExercise : ExerciseData ℝ)) "lifting" init = init := by
    intro init
    rw [applyFormChecks_eq]
    have hfil : ((defaultExercise : ExerciseData ℝ).formChecks.filter
        (fun ch => runFormCheck frameC2 Side.left
          (gerundOf (defaultExercise : ExerciseData ℝ)) "lifting" ch)) = [] := by
      rw [hlist]
      simp only [List.filter_cons, h1, h2, List.filter_nil, Bool.false_eq_true, if_false]
    rw [hfil]; rfl
  have hok : (analyzeExerciseForm true (90 : ℝ) frameC2 defaultExercise Side.left 5000
      initSession).formOk = some true := by
    have hrfl : (analyzeExerciseForm true (90 : ℝ) frameC2 defaultExercise Side.left 5000
        initSession).formOk =
        (applyFormChecks (defaultExercise : ExerciseData ℝ).formChecks frameC2 Side.left
          (gerundOf (defaultExercise : ExerciseData ℝ))
          (phaseFeedback (defaultExercise : ExerciseData ℝ) 90
            (repCountStep (defaultExercise : ExerciseData ℝ) 90 5000 initSession).repCount).2.2
          ((phaseFeedback (defaultExercise : ExerciseData ℝ) 90
            (repCountStep (defaultExercise : ExerciseData ℝ) 90 5000
              initSession).repCount).1,
            some (phaseFeedback (defaultExercise : ExerciseData ℝ) 90
              (repCountStep (defaultExercise : ExerciseData ℝ) 90 5000
                initSession).repCount).2.1)).2 := rfl
    rw [hrfl, hstate, happ, hfc]
  have harm : analyzeArmExercise none frameC2 Side.left true 5000 initSession =
      some (Side.left,
        calculateAngle { x := 0, y := 1, visibility := 1 }
          { x := 0, y := 0, visibility := 1 / 10 } { x := 1, y := 0, visibility := 1 },
        analyzeExerciseForm true
          (calculateAngle { x := 0, y := 1, visibility := 1 }
            { x := 0, y := 0, visibility := 1 / 10 } { x := 1, y := 0, visibility := 1 })
          frameC2 defaultExercise Side.left 5000 initSession) := rfl
  have hangle := calculateAngle_right_angle 1 (1 / 10) 1
  refine ⟨rfl, by norm_num, ?_⟩
  rw [harm, hangle, Option.map_some']
  show some (Side.left,
      (analyzeExerciseForm true (90 : ℝ) frameC2 defaultExercise Side.left 5000
        initSession).formOk,
      (analyzeExerciseForm true (90 : ℝ) frameC2 defaultExercise Side.left 5000
        initSession).session.repCount) =
    some (Side.left, some true, initSession.repCount + 1)
  rw [hok, hrep]

/-- C2 witness: the amended short-circuit theorem applied to the empty
frame with the default exercise: the vertex lookup is none and the
analysis returns none. -/
theorem witness_C2 :
    (emptyFrame : Frame ℝ) (resolveAnglePoints (detectActiveArm emptyFrame Side.left)
        ((none : Option (ExerciseData ℝ)).getD defaultExercise).primaryAngle.points).1 =
      none ∧
      analyzeArmExercise none emptyFrame Side.left true 0 initSession = none :=
  ⟨rfl, claim_C2 none emptyFrame Side.left true 0 initSession (Or.inl rfl)⟩
